import Mathlib

/-!
Shallow embedding of `simulate_logging.ts` from the pdf-attachment-demo
repository: a sequential orchestrator that reads a PDF file, base64-encodes
it, submits it to a completion service, and records the interaction as a
three-node span tree (root span, `system_prompt` child, `user_prompt` child)
linked through the root span's exported identifier.

Bytes are modelled as `Nat` values below 256; the external collaborators
(filesystem, completion service, identifier exporter) are a `World` record of
functions; each run produces a linear trace of events together with the final
span records and an optional propagated error.
-/

/-- Standard base64: code point of the character for sextet `n`
(`A-Z`, `a-z`, `0-9`, `+`, `/`), as produced by Node's
`Buffer.toString('base64')`. -/
def b64Code (n : Nat) : Nat :=
  if n < 26 then 65 + n
  else if n < 52 then 97 + (n - 26)
  else if n < 62 then 48 + (n - 52)
  else if n = 62 then 43
  else 47

/-- The base64 alphabet character for sextet `n`. -/
def sextetChar (n : Nat) : Char := Char.ofNat (b64Code n)

/-- Inverse lookup: the sextet value of a base64 alphabet character,
`none` for any character outside the alphabet (including `=` and `\n`). -/
def sextetVal (c : Char) : Option Nat :=
  let k := c.toNat
  if 65 ≤ k ∧ k ≤ 90 then some (k - 65)
  else if 97 ≤ k ∧ k ≤ 122 then some (k - 97 + 26)
  else if 48 ≤ k ∧ k ≤ 57 then some (k - 48 + 52)
  else if k = 43 then some 62
  else if k = 47 then some 63
  else none

/-- Base64 encoding of a byte list (standard alphabet, `=` padding,
no line wrapping), as Node's `Buffer.toString('base64')` produces for the
bytes read from the PDF file. -/
def b64Encode : List Nat → List Char
  | [] => []
  | [a] => [sextetChar (a / 4), sextetChar (a % 4 * 16), '=', '=']
  | [a, b] => [sextetChar (a / 4), sextetChar (a % 4 * 16 + b / 16),
               sextetChar (b % 16 * 4), '=']
  | a :: b :: c :: rest =>
      sextetChar (a / 4) :: sextetChar (a % 4 * 16 + b / 16) ::
      sextetChar (b % 16 * 4 + c / 64) :: sextetChar (c % 64) :: b64Encode rest

/-- Base64 decoding: consumes groups of four characters, accepting `=`
padding only at the very end of the string. -/
def b64Decode : List Char → Option (List Nat)
  | [] => some []
  | w :: x :: y :: z :: rest =>
      match sextetVal w, sextetVal x with
      | some a, some b =>
          if y = '=' ∧ z = '=' ∧ rest = [] then some [a * 4 + b / 16]
          else
            match sextetVal y with
            | some c =>
                if z = '=' ∧ rest = [] then
                  some [a * 4 + b / 16, b % 16 * 16 + c / 4]
                else
                  match sextetVal z with
                  | some d =>
                      (b64Decode rest).map
                        (fun ds => (a * 4 + b / 16) :: (b % 16 * 16 + c / 4) ::
                                   (c % 4 * 64 + d) :: ds)
                  | none => none
            | none => none
      | _, _ => none
  | _ => none

/-- A character is in the base64 alphabet or is the padding character. -/
def isB64OrPad (c : Char) : Bool := (sextetVal c).isSome || c == '='

example : b64Encode [] = [] := by decide
example : String.mk (b64Encode [77]) = "TQ==" := by decide
example : String.mk (b64Encode [77, 97]) = "TWE=" := by decide
example : String.mk (b64Encode [77, 97, 110]) = "TWFu" := by decide
example : b64Decode (b64Encode [77, 97, 110, 5]) = some [77, 97, 110, 5] := by decide

/-- An Attachment as constructed by `new Attachment({data, filename, contentType})`
in `logUserPrompt`: raw bytes, logical filename, MIME type. -/
structure Attachment where
  data : List Nat
  filename : String
  contentType : String
deriving DecidableEq

/-- A content item of a span's input sequence: plain text or an Attachment. -/
inductive Content where
  | text : String → Content
  | attach : Attachment → Content
deriving DecidableEq

/-- A role-tagged message as logged into a span's `input`. -/
structure Message where
  role : String
  content : Content
deriving DecidableEq

/-- A span record: identity, presentation attributes (`name`, `type`,
`parent` as set by `span.setAttributes`), and logged payload
(`input`, `output`, `metadata` as set by `span.log`). -/
structure Span where
  sid : Nat
  name : Option String := none
  spanType : Option String := none
  parent : Option String := none
  input : List Message := []
  output : Option String := none
  metadata : List (String × String) := []
deriving DecidableEq

/-- An observable step of a run: console output, filesystem reads, the
completion call, span creation/attribute/log operations, and the resolution
of an exported span identifier (the value awaited from `span.export()`). -/
inductive Event where
  | consoleLog : String → Event
  | consoleWarn : String → Event
  | consoleError : String → Event
  | readCall : String → Event
  | completionCall : Event
  | processPdfCall : String → Event
  | spanCreated : Nat → Event
  | attrsSet : Nat → Option String → Option String → Option String → Event
  | logged : Nat → Event
  | exportResolved : String → Event
deriving DecidableEq

/-- Outcome of the `client.chat.completions.create` call: a thrown upstream
error (optionally carrying an embedded `response.data` payload) or a
returned completion whose content may be absent. -/
inductive CompletionOutcome where
  | failure : Option String → CompletionOutcome
  | success : Option String → CompletionOutcome
deriving DecidableEq

/-- An error propagating out of `processPdf` to the top-level catch:
a filesystem read failure at a path, or an upstream completion failure
with an optional embedded response payload. -/
inductive RunError where
  | ioError : String → RunError
  | upstream : Option String → RunError
deriving DecidableEq

/-- The request assembled for the completion service in `processPdf`:
model, system instruction, embedded file (filename + base64 data URL),
accompanying user text, and token cap. -/
structure ChatRequest where
  model : String
  systemContent : String
  fileFilename : String
  fileData : String
  userText : String
  maxTokens : Nat
deriving DecidableEq

/-- The external collaborators of a run: the working directory, the
filesystem (indexed by how many reads have already happened, so the file may
change between the two reads the program performs; `none` models a thrown
read error), the completion service, and the exporter assigning each span id
its opaque exported identifier string. -/
structure World where
  cwd : String
  readFile : Nat → String → Option (List Nat)
  complete : ChatRequest → CompletionOutcome
  exportSlug : Nat → String

/-- The fixed system instruction `SYSTEM_PROMPT` of `simulate_logging.ts`. -/
def SYSTEM_PROMPT : String :=
  "\nYou are a financial analyst specializing in earnings call analysis. Your task is to provide a quick, bullet-point summary of the key points from earnings call transcripts.\n\nFocus ONLY on these 3-5 key points:\n• Revenue and EPS figures vs expectations\n• Major business highlights or challenges\n• Forward guidance for next quarter\n\nKeep each point to 1-2 sentences maximum. Be extremely concise and focus only on the most important information.\nOnly output the key points, no other text.\n"

/-- A record of the static manifest `pdfFiles`. -/
structure FileRec where
  filename : String
  url : String
deriving DecidableEq

/-- The static manifest `pdfFiles` of `simulate_logging.ts`. -/
def pdfFiles : List FileRec :=
  [ { filename := "META-Q4-2024-Earnings-Call-Transcript.pdf",
      url := "https://s21.q4cdn.com/399680738/files/doc_financials/2024/q4/META-Q4-2024-Earnings-Call-Transcript.pdf" },
    { filename := "walmart-q4-fy25-earnings-call-transcript.pdf",
      url := "https://corporate.walmart.com/content/dam/corporate/documents/newsroom/2025/02/20/walmart-releases-q4-fy25-earnings/q4-fy25-earnings-call-transcript.pdf" },
    { filename := "Citi-4Q24-Earnings-Transcript.pdf",
      url := "https://www.citigroup.com/rcs/citigpa/storage/public/Earnings/Q42024/4Q24-Earnings-Transcript.pdf" },
    { filename := "jpmc-4q24-earnings-transcript.pdf",
      url := "https://www.jpmorganchase.com/content/dam/jpmc/jpmorgan-chase-and-co/investor-relations/documents/quarterly-earnings/2024/4th-quarter/4q24-earnings-transcript.pdf" },
    { filename := "adobe-a4t3greafe.pdf",
      url := "https://www.adobe.com/cc-shared/assets/investor-relations/pdfs/21305202/a4t3greafe.pdf" },
    { filename := "Qualcomm_Q1FY25EC_Transcript_2-5-24.pdf",
      url := "https://s204.q4cdn.com/645488518/files/doc_events/2025/Feb/05/QCOM_Q1FY25EC_Transcript_2-5-24.pdf" },
    { filename := "autodesk-q4-2025.pdf",
      url := "https://investors.autodesk.com/static-files/19993aff-b8f9-4d6a-9d6d-84062c13b4f8" },
    { filename := "homedepot-4q24-transcript.pdf",
      url := "https://ir.homedepot.com/~/media/Files/H/HomeDepot-IR/documents/hd-4q24-transcript.pdf" } ]

/-- `path.join(process.cwd(), 'pdfs', filename)`: the conventional local
path of a manifest file. -/
def pdfsPath (cwd filename : String) : String := cwd ++ "/pdfs/" ++ filename

/-- A manifest record enriched with its local path, as produced by
`getPdfFiles`. -/
structure PdfFileRec where
  filename : String
  path : String
  url : String
deriving DecidableEq

/-- `getPdfFiles`: maps the static manifest to records with local paths. -/
def getPdfFiles (cwd : String) : List PdfFileRec :=
  pdfFiles.map fun file =>
    { filename := file.filename, path := pdfsPath cwd file.filename, url := file.url }

/-- The constant `userPrompt` text of `processPdf`. -/
def userPromptText : String := "Please analyze this earnings call transcript"

/-- The chat completion request assembled in `processPdf`: gpt-4o, the
system prompt, the PDF as a base64 data URL plus the user text, 500 max
tokens. -/
def mkChatRequest (filename base64String : String) : ChatRequest :=
  { model := "gpt-4o"
    systemContent := SYSTEM_PROMPT
    fileFilename := filename
    fileData := "data:application/pdf;base64," ++ base64String
    userText := userPromptText
    maxTokens := 500 }

/-- `logSystemPrompt(filename, url, summary, rootSpan)`: creates a traced
span, awaits the root's exported identifier, sets
`{name: "system_prompt", type: "llm", parent}` and logs the system
instruction as input with the summary as output. `filename` and `url` are
parameters of the source function but are not used by it. -/
def logSystemPrompt (sid : Nat) (filename url summary rootSpan : String) :
    List Event × Span :=
  ( [Event.spanCreated sid, Event.exportResolved rootSpan,
     Event.attrsSet sid (some "system_prompt") (some "llm") (some rootSpan),
     Event.logged sid],
    { sid := sid, name := some "system_prompt", spanType := some "llm",
      parent := some rootSpan,
      input := [{ role := "system", content := Content.text SYSTEM_PROMPT }],
      output := some summary, metadata := [] } )

/-- `logUserPrompt(filename, url, userPrompt, summary, rootSpan, base64String)`:
creates a traced span, awaits the root's exported identifier, sets
`{name: "user_prompt", type: "llm", parent}`, re-reads the PDF from
`<cwd>/pdfs/<filename>` (read index `readIdx`; a failed read propagates),
builds the Attachment from that second read, and logs input (user text +
attachment), output and metadata (filename, url, base64String). -/
def logUserPrompt (w : World) (readIdx sid : Nat)
    (filename url userPrompt summary rootSpan base64String : String) :
    List Event × List Span × Option RunError :=
  let ev0 : List Event :=
    [Event.spanCreated sid, Event.exportResolved rootSpan,
     Event.attrsSet sid (some "user_prompt") (some "llm") (some rootSpan)]
  let pdfPath := pdfsPath w.cwd filename
  match w.readFile readIdx pdfPath with
  | none =>
      (ev0 ++ [Event.readCall pdfPath],
       [{ sid := sid, name := some "user_prompt", spanType := some "llm",
          parent := some rootSpan }],
       some (RunError.ioError pdfPath))
  | some pdfData =>
      let attachment : Attachment :=
        { data := pdfData, filename := filename, contentType := "application/pdf" }
      (ev0 ++ [Event.readCall pdfPath, Event.logged sid],
       [{ sid := sid, name := some "user_prompt", spanType := some "llm",
          parent := some rootSpan,
          input := [{ role := "user", content := Content.text userPrompt },
                    { role := "user", content := Content.attach attachment }],
          output := some summary,
          metadata := [("filename", filename), ("url", url),
                       ("base64String", base64String)] }],
       none)

/-- `processPdf(pdfFile)`: the traced per-file processing unit. Reads the
PDF (read index 0), base64-encodes it, names the root span, exports the
root's identifier, calls the completion service; on empty content warns and
returns early; otherwise logs the root output and sequentially emits the
system-prompt and user-prompt child spans (the latter performing read
index 1). Returns the event trace, the spans produced so far, and the
error propagating out, if any. -/
def processPdf (w : World) (pdfFile : PdfFileRec) :
    List Event × List Span × Option RunError :=
  let ev0 : List Event :=
    [Event.processPdfCall pdfFile.filename, Event.spanCreated 0,
     Event.consoleLog ("Processing " ++ pdfFile.filename ++ "..."),
     Event.readCall pdfFile.path]
  match w.readFile 0 pdfFile.path with
  | none => (ev0, [{ sid := 0 }], some (RunError.ioError pdfFile.path))
  | some pdfData =>
    let base64String := String.mk (b64Encode pdfData)
    let rootSpan0 : Span := { sid := 0, name := some pdfFile.filename }
    let rootSpanSlug := w.exportSlug 0
    let ev1 := ev0 ++ [Event.attrsSet 0 (some pdfFile.filename) none none,
                       Event.completionCall]
    match w.complete (mkChatRequest pdfFile.filename base64String) with
    | CompletionOutcome.failure rd =>
        (ev1, [rootSpan0], some (RunError.upstream rd))
    | CompletionOutcome.success none =>
        (ev1 ++ [Event.consoleWarn "No summary generated"], [rootSpan0], none)
    | CompletionOutcome.success (some summary) =>
        let rootSpan1 := { rootSpan0 with output := some summary }
        let ev2 := ev1 ++
          [Event.consoleLog ("\nEarnings Summary for " ++ pdfFile.filename ++
             ": Summary Created! View in the Braintrust UI\x7d\n"),
           Event.logged 0]
        let sys := logSystemPrompt 1 pdfFile.filename pdfFile.url summary rootSpanSlug
        let user := logUserPrompt w 1 2 pdfFile.filename pdfFile.url
          userPromptText summary rootSpanSlug base64String
        (ev2 ++ sys.1 ++ user.1, rootSpan1 :: sys.2 :: user.2.1, user.2.2)

/-- `generateSummary`: logs the manifest size, then inside a single
try/catch processes only the first manifest record (`processPdf(pdfFiles[0])`,
the loop over all files being commented out). The catch logs the error and,
when present, its embedded response payload. -/
def generateSummary (w : World) : List Event × List Span :=
  let files := getPdfFiles w.cwd
  let ev0 : List Event :=
    [Event.consoleLog ("Found " ++ toString files.length ++ " PDFs to process")]
  match files with
  | [] => (ev0 ++ [Event.consoleError "Error in main:"], [])
  | f :: _ =>
    let r := processPdf w f
    match r.2.2 with
    | none => (ev0 ++ r.1, r.2.1)
    | some (RunError.ioError _) =>
        (ev0 ++ r.1 ++ [Event.consoleError "Error in main:"], r.2.1)
    | some (RunError.upstream rd) =>
        (ev0 ++ r.1 ++ [Event.consoleError "Error in main:"] ++
          (match rd with
           | some d => [Event.consoleError ("Response data: " ++ d)]
           | none => []), r.2.1)

/-! ### Run-level helpers -/

/-- The first record of the static manifest, enriched with its path. -/
def metaFile (cwd : String) : PdfFileRec :=
  { filename := "META-Q4-2024-Earnings-Call-Transcript.pdf",
    path := pdfsPath cwd "META-Q4-2024-Earnings-Call-Transcript.pdf",
    url := "https://s21.q4cdn.com/399680738/files/doc_financials/2024/q4/META-Q4-2024-Earnings-Call-Transcript.pdf" }

/-- Is an event the completion call? -/
def isCompletionCall : Event → Bool
  | Event.completionCall => true
  | _ => false

/-- The path of a filesystem-read event, if it is one. -/
def readCallPath : Event → Option String
  | Event.readCall p => some p
  | _ => none

/-- The filename of a `processPdf` invocation event, if it is one. -/
def processPdfCallName : Event → Option String
  | Event.processPdfCall fn => some fn
  | _ => none

/-- Scans a trace left to right, accumulating the identifiers that have been
resolved from `export`, and checks that every parent link written by a
`setAttributes` call uses an identifier already resolved at that point. -/
def exportedBeforeLink (exported : List String) : List Event → Bool
  | [] => true
  | Event.attrsSet _ _ _ (some p) :: rest =>
      exported.contains p && exportedBeforeLink exported rest
  | Event.exportResolved s :: rest => exportedBeforeLink (s :: exported) rest
  | _ :: rest => exportedBeforeLink exported rest

/-! ### Concrete worlds used as witnesses -/

/-- A small PDF byte sequence (`%PDF-1.4`). -/
def pdfBytes : List Nat := [37, 80, 68, 70, 45, 49, 46, 52]

/-- A world where every read succeeds with the same bytes and the completion
service returns a summary. -/
def okWorld : World :=
  { cwd := "/demo"
    readFile := fun _ _ => some pdfBytes
    complete := fun _ =>
      CompletionOutcome.success (some "- Revenue beat.\n- Guidance raised.")
    exportSlug := fun n => "span-" ++ toString n }

/-- A world whose completion service returns no content. -/
def emptyWorld : World :=
  { okWorld with complete := fun _ => CompletionOutcome.success none }

/-- A world whose completion service throws with an embedded response
payload. -/
def upstreamWorld : World :=
  { okWorld with
    complete := fun _ => CompletionOutcome.failure (some "quota exceeded") }

/-- A world where the file changes between the first and the second read. -/
def twoReadWorld : World :=
  { okWorld with
    readFile := fun i _ => if i = 0 then some [1, 2, 3] else some [9, 9, 9] }

/-- A sample file record matching the spec's end-to-end scenario. -/
def reportFile : PdfFileRec :=
  { filename := "report.pdf", path := "/demo/pdfs/report.pdf",
    url := "https://example.com/report.pdf" }

/-! ### Base64 lemmas -/

lemma sextetVal_sextetChar : ∀ n < 64, sextetVal (sextetChar n) = some n := by decide

lemma sextetChar_ne_pad : ∀ n < 64, sextetChar n ≠ '=' := by decide

lemma isB64OrPad_sextetChar : ∀ n < 64, isB64OrPad (sextetChar n) = true := by decide

/-- Case/induction principle following the three-byte chunking of
`b64Encode`. -/
theorem b64chunk_ind {P : List Nat → Prop} (h0 : P []) (h1 : ∀ a, P [a])
    (h2 : ∀ a b, P [a, b])
    (h3 : ∀ a b c rest, P rest → P (a :: b :: c :: rest)) : ∀ l, P l
  | [] => h0
  | [a] => h1 a
  | [a, b] => h2 a b
  | a :: b :: c :: rest => h3 a b c rest (b64chunk_ind h0 h1 h2 h3 rest)

/-- Decoding inverts encoding for every list of bytes. -/
theorem b64Decode_b64Encode :
    ∀ bs : List Nat, (∀ b ∈ bs, b < 256) → b64Decode (b64Encode bs) = some bs := by
  intro bs
  induction bs using b64chunk_ind with
  | h0 => intro _; rfl
  | h1 a =>
      intro h
      have ha : a < 256 := h a (by simp)
      simp [b64Encode, b64Decode,
        sextetVal_sextetChar _ (by omega : a / 4 < 64),
        sextetVal_sextetChar _ (by omega : a % 4 * 16 < 64)]
      all_goals omega
  | h2 a b =>
      intro h
      have ha : a < 256 := h a (by simp)
      have hb : b < 256 := h b (by simp)
      have hy : sextetChar (b % 16 * 4) ≠ '=' := sextetChar_ne_pad _ (by omega)
      simp [b64Encode, b64Decode, hy,
        sextetVal_sextetChar _ (by omega : a / 4 < 64),
        sextetVal_sextetChar _ (by omega : a % 4 * 16 + b / 16 < 64),
        sextetVal_sextetChar _ (by omega : b % 16 * 4 < 64)]
      all_goals omega
  | h3 a b c rest ih =>
      intro h
      have ha : a < 256 := h a (by simp)
      have hb : b < 256 := h b (by simp)
      have hc : c < 256 := h c (by simp)
      have hrest := ih (fun x hx => h x (by simp [hx]))
      have hy : sextetChar (b % 16 * 4 + c / 64) ≠ '=' := sextetChar_ne_pad _ (by omega)
      have hz : sextetChar (c % 64) ≠ '=' := sextetChar_ne_pad _ (by omega)
      simp [b64Encode, b64Decode, hy, hz, hrest,
        sextetVal_sextetChar _ (by omega : a / 4 < 64),
        sextetVal_sextetChar _ (by omega : a % 4 * 16 + b / 16 < 64),
        sextetVal_sextetChar _ (by omega : b % 16 * 4 + c / 64 < 64),
        sextetVal_sextetChar _ (by omega : c % 64 < 64)]
      all_goals omega

/-- Every character of an encoding is in the base64 alphabet or padding. -/
theorem b64Encode_chars :
    ∀ bs : List Nat, (∀ b ∈ bs, b < 256) →
      ∀ c ∈ b64Encode bs, isB64OrPad c = true := by
  intro bs
  induction bs using b64chunk_ind with
  | h0 => intro _ c hc; simp [b64Encode] at hc
  | h1 a =>
      intro h c hc
      have ha : a < 256 := h a (by simp)
      simp only [b64Encode, List.mem_cons, List.not_mem_nil, or_false] at hc
      rcases hc with rfl | rfl | rfl | rfl
      · exact isB64OrPad_sextetChar _ (by omega)
      · exact isB64OrPad_sextetChar _ (by omega)
      · rfl
      · rfl
  | h2 a b =>
      intro h c hc
      have ha : a < 256 := h a (by simp)
      have hb : b < 256 := h b (by simp)
      simp only [b64Encode, List.mem_cons, List.not_mem_nil, or_false] at hc
      rcases hc with rfl | rfl | rfl | rfl
      · exact isB64OrPad_sextetChar _ (by omega)
      · exact isB64OrPad_sextetChar _ (by omega)
      · exact isB64OrPad_sextetChar _ (by omega)
      · rfl
  | h3 a b c rest ih =>
      intro h x hx
      have ha : a < 256 := h a (by simp)
      have hb : b < 256 := h b (by simp)
      have hc : c < 256 := h c (by simp)
      simp only [b64Encode, List.mem_cons] at hx
      rcases hx with rfl | rfl | rfl | rfl | hx
      · exact isB64OrPad_sextetChar _ (by omega)
      · exact isB64OrPad_sextetChar _ (by omega)
      · exact isB64OrPad_sextetChar _ (by omega)
      · exact isB64OrPad_sextetChar _ (by omega)
      · exact ih (fun y hy => h y (by simp [hy])) x hx

/-- Encoding is injective on byte lists. -/
theorem b64Encode_injective (bs0 bs1 : List Nat)
    (h0 : ∀ b ∈ bs0, b < 256) (h1 : ∀ b ∈ bs1, b < 256)
    (he : b64Encode bs0 = b64Encode bs1) : bs0 = bs1 := by
  have e0 := b64Decode_b64Encode bs0 h0
  have e1 := b64Decode_b64Encode bs1 h1
  rw [he, e1] at e0
  exact (Option.some.injEq _ _).mp e0.symm

/-! ### Run-level lemmas -/

/-- The orchestrator's main function unfolds to processing exactly the first
manifest record inside the single top-level try/catch. -/
lemma generateSummary_eq (w : World) :
    generateSummary w =
      (let r := processPdf w (metaFile w.cwd)
       let ev0 : List Event :=
         [Event.consoleLog ("Found " ++ toString (8 : Nat) ++ " PDFs to process")]
       match r.2.2 with
       | none => (ev0 ++ r.1, r.2.1)
       | some (RunError.ioError _) =>
           (ev0 ++ r.1 ++ [Event.consoleError "Error in main:"], r.2.1)
       | some (RunError.upstream rd) =>
           (ev0 ++ r.1 ++ [Event.consoleError "Error in main:"] ++
             (match rd with
              | some d => [Event.consoleError ("Response data: " ++ d)]
              | none => []), r.2.1)) := rfl

/-! ### Claim theorems -/

/-- Claim C10: the system-prompt span emitted by `logSystemPrompt` does not
depend on the `filename` or `url` arguments: two invocations agreeing on the
summary and the resolved root identifier produce identical event traces and
identical span records. -/
theorem logSystemPrompt_ignores_filename_url (sid : Nat)
    (fn1 url1 fn2 url2 summary rootSlug : String) :
    logSystemPrompt sid fn1 url1 summary rootSlug =
      logSystemPrompt sid fn2 url2 summary rootSlug := rfl

/-- Claim C2: if the completion call returns no content, processing the file
logs a console warning and returns early with no propagated error, and the
only span produced is the root (neither the `system_prompt` nor the
`user_prompt` child span is emitted). -/
theorem processPdf_empty_completion (w : World) (f : PdfFileRec) (bs : List Nat)
    (h1 : w.readFile 0 f.path = some bs)
    (h2 : w.complete (mkChatRequest f.filename (String.mk (b64Encode bs))) =
      CompletionOutcome.success none) :
    (processPdf w f).2.2 = none ∧
    Event.consoleWarn "No summary generated" ∈ (processPdf w f).1 ∧
    (processPdf w f).2.1 = [{ sid := 0, name := some f.filename }] := by
  simp [processPdf, h1, h2]

theorem processPdf_empty_completion_witness :
    emptyWorld.readFile 0 reportFile.path = some pdfBytes ∧
    emptyWorld.complete
      (mkChatRequest reportFile.filename (String.mk (b64Encode pdfBytes))) =
      CompletionOutcome.success none ∧
    ((processPdf emptyWorld reportFile).2.2 = none ∧
     Event.consoleWarn "No summary generated" ∈ (processPdf emptyWorld reportFile).1 ∧
     (processPdf emptyWorld reportFile).2.1 =
       [{ sid := 0, name := some reportFile.filename }]) :=
  ⟨rfl, rfl, processPdf_empty_completion emptyWorld reportFile pdfBytes rfl rfl⟩

/-- Claim C9: when the completion returns no content, the root span has
already been named (the `attrsSet` with the filename precedes the warning in
the trace), its output is never logged, and the root span record is still
produced with name set, output unset, and every other field untouched. -/
theorem processPdf_empty_completion_root_state (w : World) (f : PdfFileRec)
    (bs : List Nat)
    (h1 : w.readFile 0 f.path = some bs)
    (h2 : w.complete (mkChatRequest f.filename (String.mk (b64Encode bs))) =
      CompletionOutcome.success none) :
    processPdf w f =
      ([Event.processPdfCall f.filename, Event.spanCreated 0,
        Event.consoleLog ("Processing " ++ f.filename ++ "..."),
        Event.readCall f.path,
        Event.attrsSet 0 (some f.filename) none none,
        Event.completionCall,
        Event.consoleWarn "No summary generated"],
       [{ sid := 0, name := some f.filename, spanType := none, parent := none,
          input := [], output := none, metadata := [] }],
       none) := by
  simp [processPdf, h1, h2]

theorem processPdf_empty_completion_root_state_witness :
    emptyWorld.readFile 0 (metaFile "/demo").path = some pdfBytes ∧
    processPdf emptyWorld (metaFile "/demo") =
      ([Event.processPdfCall (metaFile "/demo").filename, Event.spanCreated 0,
        Event.consoleLog ("Processing " ++ (metaFile "/demo").filename ++ "..."),
        Event.readCall (metaFile "/demo").path,
        Event.attrsSet 0 (some (metaFile "/demo").filename) none none,
        Event.completionCall,
        Event.consoleWarn "No summary generated"],
       [{ sid := 0, name := some (metaFile "/demo").filename, spanType := none,
          parent := none, input := [], output := none, metadata := [] }],
       none) :=
  ⟨rfl, processPdf_empty_completion_root_state emptyWorld (metaFile "/demo")
    pdfBytes rfl rfl⟩

/-- Claim C3: scanning any run's trace left to right, every parent link
written by a `setAttributes` call uses an identifier that was resolved from
`export` strictly earlier in the trace (a child span is never linked before
its parent's identifier has been produced), and the `parent_ref` stored in
every child span record is the root span's resolved identifier string. -/
theorem child_linked_after_export (w : World) :
    exportedBeforeLink [] (generateSummary w).1 = true ∧
    ∀ sp ∈ (generateSummary w).2,
      sp.parent = none ∨ sp.parent = some (w.exportSlug 0) := by
  rw [generateSummary_eq]
  rcases h0 : w.readFile 0 (pdfsPath w.cwd "META-Q4-2024-Earnings-Call-Transcript.pdf")
    with _ | bs
  · simp [processPdf, metaFile, h0, exportedBeforeLink]
  · rcases h1 : w.complete (mkChatRequest "META-Q4-2024-Earnings-Call-Transcript.pdf"
        (String.mk (b64Encode bs))) with rd | s
    · rcases rd with _ | d <;>
        simp [processPdf, metaFile, h0, h1, exportedBeforeLink]
    · rcases s with _ | summary
      · simp [processPdf, metaFile, h0, h1, exportedBeforeLink]
      · rcases h2 : w.readFile 1
            (pdfsPath w.cwd "META-Q4-2024-Earnings-Call-Transcript.pdf") with _ | bs2 <;>
          simp [processPdf, logSystemPrompt, logUserPrompt, metaFile, h0, h1, h2,
            exportedBeforeLink]

theorem child_linked_after_export_witness :
    exportedBeforeLink [] (generateSummary okWorld).1 = true ∧
    ∀ sp ∈ (generateSummary okWorld).2,
      sp.parent = none ∨ sp.parent = some (okWorld.exportSlug 0) :=
  child_linked_after_export okWorld

/-- Claim C4: for a successfully processed file, the spans contain exactly
one root span (no parent), named after the file with the completion text as
its logged output, and exactly one `system_prompt` child span whose
`parent_ref` is the root's exported identifier and whose input is the fixed
system instruction, with the same completion text as its output. -/
theorem root_and_system_span (w : World) (f : PdfFileRec) (bs bs2 : List Nat)
    (summary : String)
    (h1 : w.readFile 0 f.path = some bs)
    (h2 : w.complete (mkChatRequest f.filename (String.mk (b64Encode bs))) =
      CompletionOutcome.success (some summary))
    (h3 : w.readFile 1 (pdfsPath w.cwd f.filename) = some bs2) :
    ((processPdf w f).2.1.countP (fun sp => decide (sp.parent = none))) = 1 ∧
    ((processPdf w f).2.1.filter (fun sp => decide (sp.parent = none))) =
      [{ sid := 0, name := some f.filename, output := some summary }] ∧
    ((processPdf w f).2.1.countP
      (fun sp => decide (sp.name = some "system_prompt" ∧ sp.parent ≠ none))) = 1 ∧
    ({ sid := 1, name := some "system_prompt", spanType := some "llm",
       parent := some (w.exportSlug 0),
       input := [{ role := "system", content := Content.text SYSTEM_PROMPT }],
       output := some summary, metadata := [] } : Span) ∈ (processPdf w f).2.1 := by
  simp [processPdf, logSystemPrompt, logUserPrompt, h1, h2, h3,
    List.countP_cons, List.filter]

theorem root_and_system_span_witness :
    okWorld.readFile 0 reportFile.path = some pdfBytes ∧
    (((processPdf okWorld reportFile).2.1.countP
        (fun sp => decide (sp.parent = none))) = 1 ∧
     ((processPdf okWorld reportFile).2.1.filter
        (fun sp => decide (sp.parent = none))) =
       [{ sid := 0, name := some reportFile.filename,
          output := some "- Revenue beat.\n- Guidance raised." }] ∧
     ((processPdf okWorld reportFile).2.1.countP
        (fun sp => decide (sp.name = some "system_prompt" ∧ sp.parent ≠ none))) = 1 ∧
     ({ sid := 1, name := some "system_prompt", spanType := some "llm",
        parent := some (okWorld.exportSlug 0),
        input := [{ role := "system", content := Content.text SYSTEM_PROMPT }],
        output := some "- Revenue beat.\n- Guidance raised.",
        metadata := [] } : Span) ∈ (processPdf okWorld reportFile).2.1) :=
  ⟨rfl, root_and_system_span okWorld reportFile pdfBytes pdfBytes
    "- Revenue beat.\n- Guidance raised." rfl rfl rfl⟩

/-- Claim C1: for a successfully processed file whose bytes are `bs` (both
reads observing the same content), the run contains exactly one
`user_prompt` child span; its `parent_ref` is the root's exported
identifier, its metadata holds the filename, the url and the base64
encoding of the file bytes, and its input sequence contains the raw
Attachment with content type `application/pdf` and data equal to the
original bytes. -/
theorem user_prompt_span_complete (w : World) (f : PdfFileRec) (bs : List Nat)
    (summary : String)
    (h1 : w.readFile 0 f.path = some bs)
    (h2 : w.complete (mkChatRequest f.filename (String.mk (b64Encode bs))) =
      CompletionOutcome.success (some summary))
    (h3 : w.readFile 1 (pdfsPath w.cwd f.filename) = some bs) :
    ((processPdf w f).2.1.countP
      (fun sp => decide (sp.name = some "user_prompt" ∧ sp.parent ≠ none))) = 1 ∧
    ({ sid := 2, name := some "user_prompt", spanType := some "llm",
       parent := some (w.exportSlug 0),
       input := [{ role := "user", content := Content.text userPromptText },
                 { role := "user", content := Content.attach
                    { data := bs, filename := f.filename,
                      contentType := "application/pdf" } }],
       output := some summary,
       metadata := [("filename", f.filename), ("url", f.url),
                    ("base64String", String.mk (b64Encode bs))] } : Span) ∈
      (processPdf w f).2.1 := by
  simp [processPdf, logSystemPrompt, logUserPrompt, h1, h2, h3, List.countP_cons]

theorem user_prompt_span_complete_witness :
    okWorld.readFile 0 reportFile.path = some pdfBytes ∧
    (((processPdf okWorld reportFile).2.1.countP
        (fun sp => decide (sp.name = some "user_prompt" ∧ sp.parent ≠ none))) = 1 ∧
     ({ sid := 2, name := some "user_prompt", spanType := some "llm",
        parent := some (okWorld.exportSlug 0),
        input := [{ role := "user", content := Content.text userPromptText },
                  { role := "user", content := Content.attach
                     { data := pdfBytes, filename := reportFile.filename,
                       contentType := "application/pdf" } }],
        output := some "- Revenue beat.\n- Guidance raised.",
        metadata := [("filename", reportFile.filename), ("url", reportFile.url),
                     ("base64String", String.mk (b64Encode pdfBytes))] } : Span) ∈
       (processPdf okWorld reportFile).2.1) :=
  ⟨rfl, user_prompt_span_complete okWorld reportFile pdfBytes
    "- Revenue beat.\n- Guidance raised." rfl rfl rfl⟩

/-- Claim C5: in any run over the static manifest, `processPdf` is invoked
exactly once, on the first record; every filesystem read targets the first
record's path, and every span produced is the root, the system-prompt child
or the user-prompt child of that single file (no other manifest entry is
read, encoded or given spans). The run is a single linear trace. -/
theorem only_first_file_processed (w : World) :
    ((generateSummary w).1.filterMap processPdfCallName) =
      ["META-Q4-2024-Earnings-Call-Transcript.pdf"] ∧
    (((generateSummary w).1.filterMap readCallPath).all
      (fun p => p ==
        pdfsPath w.cwd "META-Q4-2024-Earnings-Call-Transcript.pdf")) = true ∧
    ∀ sp ∈ (generateSummary w).2,
      sp.name = none ∨
      sp.name = some "META-Q4-2024-Earnings-Call-Transcript.pdf" ∨
      sp.name = some "system_prompt" ∨ sp.name = some "user_prompt" := by
  rw [generateSummary_eq]
  rcases h0 : w.readFile 0 (pdfsPath w.cwd "META-Q4-2024-Earnings-Call-Transcript.pdf")
    with _ | bs
  · simp [processPdf, metaFile, h0, processPdfCallName, readCallPath]
  · rcases h1 : w.complete (mkChatRequest "META-Q4-2024-Earnings-Call-Transcript.pdf"
        (String.mk (b64Encode bs))) with rd | s
    · rcases rd with _ | d <;>
        simp [processPdf, metaFile, h0, h1, processPdfCallName, readCallPath]
    · rcases s with _ | summary
      · simp [processPdf, metaFile, h0, h1, processPdfCallName, readCallPath]
      · rcases h2 : w.readFile 1
            (pdfsPath w.cwd "META-Q4-2024-Earnings-Call-Transcript.pdf") with _ | bs2 <;>
          simp [processPdf, logSystemPrompt, logUserPrompt, metaFile, h0, h1, h2,
            processPdfCallName, readCallPath]

theorem only_first_file_processed_witness :
    ((generateSummary okWorld).1.filterMap processPdfCallName) =
      ["META-Q4-2024-Earnings-Call-Transcript.pdf"] ∧
    (((generateSummary okWorld).1.filterMap readCallPath).all
      (fun p => p ==
        pdfsPath okWorld.cwd "META-Q4-2024-Earnings-Call-Transcript.pdf")) = true ∧
    ∀ sp ∈ (generateSummary okWorld).2,
      sp.name = none ∨
      sp.name = some "META-Q4-2024-Earnings-Call-Transcript.pdf" ∨
      sp.name = some "system_prompt" ∨ sp.name = some "user_prompt" :=
  only_first_file_processed okWorld

/-- Claim C6: if reading the first file fails, or the completion call throws,
the error propagates out of `processPdf` (its result carries the error) to
the single top-level catch, which logs the error — and, when present, its
embedded response payload — and terminates the run: at most one completion
call and at most one read are ever attempted (no retry), and no child span
is created for the file (every produced span is parentless and is neither a
system-prompt nor a user-prompt span). -/
theorem failure_aborts_run (w : World)
    (h : w.readFile 0 (pdfsPath w.cwd "META-Q4-2024-Earnings-Call-Transcript.pdf") = none ∨
         ∃ bs rd, w.readFile 0
             (pdfsPath w.cwd "META-Q4-2024-Earnings-Call-Transcript.pdf") = some bs ∧
           w.complete (mkChatRequest "META-Q4-2024-Earnings-Call-Transcript.pdf"
             (String.mk (b64Encode bs))) = CompletionOutcome.failure rd) :
    (processPdf w (metaFile w.cwd)).2.2.isSome = true ∧
    Event.consoleError "Error in main:" ∈ (generateSummary w).1 ∧
    (∀ sp ∈ (generateSummary w).2, sp.parent = none ∧
       sp.name ≠ some "system_prompt" ∧ sp.name ≠ some "user_prompt") ∧
    ((generateSummary w).1.countP isCompletionCall) ≤ 1 ∧
    ((generateSummary w).1.filterMap readCallPath).length ≤ 1 ∧
    ∀ d, (∃ bs, w.readFile 0
            (pdfsPath w.cwd "META-Q4-2024-Earnings-Call-Transcript.pdf") = some bs ∧
          w.complete (mkChatRequest "META-Q4-2024-Earnings-Call-Transcript.pdf"
            (String.mk (b64Encode bs))) = CompletionOutcome.failure (some d)) →
      Event.consoleError ("Response data: " ++ d) ∈ (generateSummary w).1 := by
  rw [generateSummary_eq]
  rcases h with h0 | ⟨bs, rd, h0, h1⟩
  · refine ⟨?_, ?_, ?_, ?_, ?_, ?_⟩ <;>
      simp [processPdf, metaFile, h0, isCompletionCall, readCallPath]
  · have hmain : Event.consoleError "Error in main:" ∈
        (let r := processPdf w (metaFile w.cwd)
         let ev0 : List Event :=
           [Event.consoleLog ("Found " ++ toString (8 : Nat) ++ " PDFs to process")]
         match r.2.2 with
         | none => (ev0 ++ r.1, r.2.1)
         | some (RunError.ioError _) =>
             (ev0 ++ r.1 ++ [Event.consoleError "Error in main:"], r.2.1)
         | some (RunError.upstream rd) =>
             (ev0 ++ r.1 ++ [Event.consoleError "Error in main:"] ++
               (match rd with
                | some d => [Event.consoleError ("Response data: " ++ d)]
                | none => []), r.2.1)).1 := by
      rcases rd with _ | d <;> simp [processPdf, metaFile, h0, h1]
    refine ⟨?_, hmain, ?_, ?_, ?_, ?_⟩
    · simp [processPdf, metaFile, h0, h1]
    · rcases rd with _ | d <;> simp [processPdf, metaFile, h0, h1]
    · rcases rd with _ | d <;> simp [processPdf, metaFile, h0, h1, isCompletionCall]
    · rcases rd with _ | d <;> simp [processPdf, metaFile, h0, h1, readCallPath]
    · intro d hd
      rcases hd with ⟨bs2, hbs2, hfail2⟩
      rw [h0] at hbs2
      cases hbs2
      rw [h1] at hfail2
      cases hfail2
      simp [processPdf, metaFile, h0, h1]

theorem failure_aborts_run_witness :
    upstreamWorld.complete (mkChatRequest "META-Q4-2024-Earnings-Call-Transcript.pdf"
      (String.mk (b64Encode pdfBytes))) =
        CompletionOutcome.failure (some "quota exceeded") ∧
    ((processPdf upstreamWorld (metaFile upstreamWorld.cwd)).2.2.isSome = true ∧
     Event.consoleError "Error in main:" ∈ (generateSummary upstreamWorld).1 ∧
     (∀ sp ∈ (generateSummary upstreamWorld).2, sp.parent = none ∧
        sp.name ≠ some "system_prompt" ∧ sp.name ≠ some "user_prompt") ∧
     ((generateSummary upstreamWorld).1.countP isCompletionCall) ≤ 1 ∧
     ((generateSummary upstreamWorld).1.filterMap readCallPath).length ≤ 1 ∧
     ∀ d, (∃ bs, upstreamWorld.readFile 0
             (pdfsPath upstreamWorld.cwd "META-Q4-2024-Earnings-Call-Transcript.pdf") = some bs ∧
           upstreamWorld.complete (mkChatRequest "META-Q4-2024-Earnings-Call-Transcript.pdf"
             (String.mk (b64Encode bs))) = CompletionOutcome.failure (some d)) →
       Event.consoleError ("Response data: " ++ d) ∈ (generateSummary upstreamWorld).1) :=
  ⟨rfl, failure_aborts_run upstreamWorld
    (Or.inr ⟨pdfBytes, some "quota exceeded", rfl, rfl⟩)⟩

/-- Claim C7: the base64 encoding applied to the file bytes in `processPdf`
is standard base64 with no line wrapping: decoding the encoding yields the
original bytes for every byte sequence including the empty one, every
character of the encoding is a base64 alphabet character or padding (so the
string prefixed with the data-URL header is a valid data-URL payload), and
the encoding contains no newline. -/
theorem base64_roundtrip (bs : List Nat) (h : ∀ b ∈ bs, b < 256) :
    b64Decode (b64Encode bs) = some bs ∧
    (∀ c ∈ b64Encode bs, isB64OrPad c = true) ∧
    '\n' ∉ b64Encode bs := by
  refine ⟨b64Decode_b64Encode bs h, b64Encode_chars bs h, fun hmem => ?_⟩
  have := b64Encode_chars bs h '\n' hmem
  simp [isB64OrPad, sextetVal] at this

theorem base64_roundtrip_witness :
    (∀ b ∈ pdfBytes, b < 256) ∧
    (b64Decode (b64Encode pdfBytes) = some pdfBytes ∧
     (∀ c ∈ b64Encode pdfBytes, isB64OrPad c = true) ∧
     '\n' ∉ b64Encode pdfBytes) :=
  ⟨by decide, base64_roundtrip pdfBytes (by decide)⟩

/-- Claim C8: the PDF is read twice per processed file — once in
`processPdf` (whose bytes feed the metadata `base64String`) and once in
`logUserPrompt` (whose bytes become the Attachment). The logged Attachment
data equals the second read's contents, and its encoding coincides with the
`base64String` in metadata exactly when the two reads saw the same bytes. -/
theorem pdf_read_twice (w : World) (f : PdfFileRec) (bs0 bs1 : List Nat)
    (summary : String)
    (hb0 : ∀ b ∈ bs0, b < 256) (hb1 : ∀ b ∈ bs1, b < 256)
    (h1 : w.readFile 0 f.path = some bs0)
    (h2 : w.complete (mkChatRequest f.filename (String.mk (b64Encode bs0))) =
      CompletionOutcome.success (some summary))
    (h3 : w.readFile 1 (pdfsPath w.cwd f.filename) = some bs1) :
    ((processPdf w f).1.filterMap readCallPath).length = 2 ∧
    (∃ sp ∈ (processPdf w f).2.1, sp.name = some "user_prompt" ∧
      ({ role := "user", content := Content.attach
          { data := bs1, filename := f.filename,
            contentType := "application/pdf" } } : Message) ∈ sp.input ∧
      ("base64String", String.mk (b64Encode bs0)) ∈ sp.metadata) ∧
    (String.mk (b64Encode bs1) = String.mk (b64Encode bs0) ↔ bs1 = bs0) := by
  refine ⟨?_, ?_, ?_⟩
  · simp [processPdf, logSystemPrompt, logUserPrompt, h1, h2, h3, readCallPath]
  · simp [processPdf, logSystemPrompt, logUserPrompt, h1, h2, h3]
  · constructor
    · intro he
      exact b64Encode_injective bs1 bs0 hb1 hb0 (congrArg String.data he)
    · intro he
      rw [he]

theorem pdf_read_twice_witness :
    twoReadWorld.readFile 0 reportFile.path = some [1, 2, 3] ∧
    twoReadWorld.readFile 1 (pdfsPath twoReadWorld.cwd reportFile.filename) =
      some [9, 9, 9] ∧
    (((processPdf twoReadWorld reportFile).1.filterMap readCallPath).length = 2 ∧
     (∃ sp ∈ (processPdf twoReadWorld reportFile).2.1,
        sp.name = some "user_prompt" ∧
        ({ role := "user", content := Content.attach
            { data := [9, 9, 9], filename := reportFile.filename,
              contentType := "application/pdf" } } : Message) ∈ sp.input ∧
        ("base64String", String.mk (b64Encode [1, 2, 3])) ∈ sp.metadata) ∧
     (String.mk (b64Encode [9, 9, 9]) = String.mk (b64Encode [1, 2, 3]) ↔
        [9, 9, 9] = ([1, 2, 3] : List Nat))) :=
  ⟨rfl, rfl, pdf_read_twice twoReadWorld reportFile [1, 2, 3] [9, 9, 9]
    "- Revenue beat.\n- Guidance raised." (by decide) (by decide) rfl rfl rfl⟩
